import Mathlib

/-!
Verification development for the EarthQuakeOverview ETL pipeline
(src/etl/extract.py, src/etl/transform.py, src/etl/load.py, src/etl_main.py).

A pandas DataFrame is modelled as a list of rows over a fixed universal
schema; column projection is modelled by nulling the dropped columns.
Timestamp values carry their own timezone state, modelling the dtype of a
uniform pandas datetime column value-by-value; tz_convert, a dtype-level
check in pandas, additionally receives the tz-awareness of the column it
runs on; the mixed-dtype columns that cannot arise in this pipeline are
outside the model.  Fallible pandas
operations (tz_localize on an already aware column, tz_convert on a naive
column, a row-wise apply whose function raises) are modelled with Except:
an error value models a raised Python exception propagating out of the
function.  Floating magnitudes are modelled as rationals; the feed never
produces non-numeric magnitude values, and NaN magnitudes are modelled as
the null (none) case, whose Python comparison semantics (NaN < x is False,
NaN >= x is False) are reproduced explicitly where they matter.
-/

/-- Timezone labels that occur in the pipeline: the feed timestamps are
UTC based and transform.py converts them to Asia Jakarta (WIB, fixed
UTC+7, no DST). -/
inductive Tz
  | UTC
  | WIB
deriving DecidableEq

/-- One timestamp cell.  `null` models both Python None and pandas NaT;
`naive` is a timezone-naive datetime64 value holding epoch milliseconds;
`aware` is a timezone-aware value whose payload is always the UTC epoch
milliseconds (pandas stores aware timestamps as UTC internally and the
timezone only affects display and component extraction); `unparseable`
is a non-null object (string) value that fails datetime parsing. -/
inductive TVal
  | null
  | naive (ms : Int)
  | aware (tz : Tz) (ms : Int)
  | unparseable (s : String)
deriving DecidableEq

/-- True exactly on the values pandas dropna treats as missing (None or
NaT).  An unparseable string is a present object value, not missing. -/
def TVal.isNull : TVal → Bool
  | TVal.null => true
  | _ => false

/-- True exactly on tz-aware values.  A single-value column has a
tz-aware dtype exactly when its value is aware (an all-NaT column, in
particular, is tz-naive unless an earlier operation made it aware). -/
def TVal.isAware : TVal → Bool
  | TVal.aware _ _ => true
  | _ => false

/-- Models pd.to_datetime(col, errors = coerce): values that fail parsing
become NaT, already parsed values pass through. -/
def to_datetime_coerce : TVal → TVal
  | TVal.unparseable _ => TVal.null
  | v => v

/-- Raised by pandas when tz_localize is applied to an already tz-aware
datetime column. -/
def errAlreadyAware : String := "TypeError: Already tz-aware - use tz_convert to convert"

/-- Raised by pandas when tz_convert is applied to a tz-naive datetime
column. -/
def errNaiveConvert : String := "TypeError: Cannot convert tz-naive timestamps - use tz_localize to localize"

/-- Placeholder error for datetime accessor misuse on an object column;
unreachable in the modelled pipeline because to_datetime runs first. -/
def errObjectDtype : String := "TypeError: object dtype in datetime operation"

/-- Models Series.dt.tz_localize(UTC): interprets naive values as UTC;
NaT stays NaT; raises on an already aware column. -/
def tz_localize_utc : TVal → Except String TVal
  | TVal.null => Except.ok TVal.null
  | TVal.naive ms => Except.ok (TVal.aware Tz.UTC ms)
  | TVal.aware _ _ => Except.error errAlreadyAware
  | TVal.unparseable _ => Except.error errObjectDtype

/-- Models Series.dt.tz_convert(target).  pandas checks the dtype of the
whole column, not each value, so the operation takes the tz-awareness of
the column the value sits in: on a tz-aware column it relabels the
display timezone (the stored UTC instant is unchanged and NaT stays
NaT); on a tz-naive column it raises, including on an all-NaT column
such as one coerced from an unparseable value. -/
def tz_convert (target : Tz) (awareCol : Bool) : TVal → Except String TVal
  | TVal.null => if awareCol then Except.ok TVal.null else Except.error errNaiveConvert
  | TVal.aware _ ms => Except.ok (TVal.aware target ms)
  | TVal.naive _ => Except.error errNaiveConvert
  | TVal.unparseable _ => Except.error errObjectDtype

/-- One row of the tabular representation, with the universal column set:
every column produced by extract.parse_geojson.  Optional scalar columns
use none for missing values.  After the projection at the end of
clean_earthquake_data the five unselected columns (tz, net, code, ids,
sources) are modelled as none. -/
structure Row where
  id : Option String
  place : Option String
  mag : Option ℚ
  time : TVal
  updated : TVal
  tz : Option Int
  felt : Option ℚ
  cdi : Option ℚ
  mmi : Option ℚ
  alert : Option String
  status : Option String
  tsunami : Option Int
  sig : Option Int
  net : Option String
  code : Option String
  ids : Option String
  sources : Option String
  types : Option String
  longitude : Option ℚ
  latitude : Option ℚ
  depth : Option ℚ
  fetched_at : TVal
deriving DecidableEq

/-- Error-propagating column map: applies f to each element in order and
stops at the first error.  Models a sequence of fallible column or row
operations in pandas, where the first raised exception aborts the whole
statement. -/
def mapME (f : α → Except String β) : List α → Except String (List β)
  | [] => Except.ok []
  | a :: as =>
    match f a with
    | Except.error e => Except.error e
    | Except.ok b =>
      match mapME f as with
      | Except.error e => Except.error e
      | Except.ok bs => Except.ok (b :: bs)

/-- Worker for drop_duplicates(subset = id): keeps the first row carrying
each id value (pandas groups missing ids together as duplicates, which
the Option key reproduces). -/
def dedupGo (seen : List (Option String)) : List Row → List Row
  | [] => []
  | r :: rs =>
    if r.id ∈ seen then dedupGo seen rs
    else r :: dedupGo (r.id :: seen) rs

/-- Models df.drop_duplicates(subset = [id]) at transform.py line 27. -/
def dedupById (df : List Row) : List Row := dedupGo [] df

/-- Models df.dropna(subset = [mag, place, latitude, longitude, time]) at
transform.py line 30: true on rows kept. -/
def requiredNonNull (r : Row) : Bool :=
  r.mag.isSome && r.place.isSome && r.latitude.isSome && r.longitude.isSome && !(r.time.isNull)

/-- Models the boolean mask df[mag] >= 0 at transform.py line 39.  A NaN
magnitude compares False in Python, hence the none case is false (it
cannot occur after the dropna above, but the mask itself is total). -/
def magNonNeg (r : Row) : Bool :=
  match r.mag with
  | some m => decide (0 ≤ m)
  | none => false

/-- The conversion applied to the time and updated columns at transform.py
lines 33 and 34: to_datetime with coercion, then tz_localize to UTC, then
tz_convert to WIB. -/
def tsPipeline (v : TVal) : Except String TVal :=
  match tz_localize_utc (to_datetime_coerce v) with
  | Except.error e => Except.error e
  | Except.ok w => tz_convert Tz.WIB true w

/-- The conversion applied to the fetched_at column at transform.py line
36: to_datetime with coercion, then tz_convert to UTC, then tz_convert
to WIB.  There is no tz_localize on this path, so the first tz_convert
sees the dtype of the coerced column itself: tz-aware only when the
source value already was (the extraction-produced process timestamp).
A missing, naive or unparseable fetched_at therefore coerces to a
tz-naive column (all-NaT in the last case) and the tz_convert raises;
after a successful first conversion the column is tz-aware. -/
def fetchedPipeline (v : TVal) : Except String TVal :=
  match tz_convert Tz.UTC (to_datetime_coerce v).isAware (to_datetime_coerce v) with
  | Except.error e => Except.error e
  | Except.ok u => tz_convert Tz.WIB true u

/-- The three timestamp column assignments of transform.py lines 33 to 36
on one row, failing on the first column whose operation raises (time,
then updated, then fetched_at, matching statement order). -/
def convertRow (r : Row) : Except String Row :=
  match tsPipeline r.time, tsPipeline r.updated, fetchedPipeline r.fetched_at with
  | Except.error e, _, _ => Except.error e
  | Except.ok _, Except.error e, _ => Except.error e
  | Except.ok _, Except.ok _, Except.error e => Except.error e
  | Except.ok t, Except.ok u, Except.ok f =>
    Except.ok { r with time := t, updated := u, fetched_at := f }

/-- Models the column projection df[selected_columns] at transform.py
lines 42 to 48: the five columns absent from the selected list (tz, net,
code, ids, sources) are dropped, here modelled by nulling them in the
universal schema. -/
def dropUnselected (r : Row) : Row :=
  { r with tz := none, net := none, code := none, ids := none, sources := none }

/-- transform.clean_earthquake_data: empty-input no-op, then dedup by id,
drop rows with a missing required field, convert the three timestamp
columns (any raised pandas error propagates), filter non-negative
magnitudes, and project to the selected columns. -/
def clean_earthquake_data (df : List Row) : Except String (List Row) :=
  if df.isEmpty then Except.ok df
  else
    match mapME convertRow (List.filter requiredNonNull (dedupById df)) with
    | Except.error e => Except.error e
    | Except.ok converted =>
      Except.ok (List.map dropUnselected (List.filter magNonNeg converted))

/-- The literal 5.5 of transform.py, as the reduced fraction 11 over 2
(the constructor form keeps every comparison kernel-computable; the
bridge lemma q55_eq below identifies it with 11 / 2). -/
def q55 : ℚ := { num := 11, den := 2 }

/-- The classify_magnitude closure at transform.py lines 70 to 82,
translated branch for branch. -/
def classify_magnitude (mag : ℚ) : String :=
  if mag < 2 then "Micro"
  else if mag < 4 then "Minor"
  else if mag < q55 then "Light"
  else if mag < 7 then "Moderate"
  else if mag < 8 then "Strong"
  else "Major"

/-- The mag column apply of classify_magnitude at transform.py line 100.
A missing magnitude is a NaN in Python; every NaN comparison is False, so
the closure falls through all branches to the final else. -/
def applyClassify (mag : Option ℚ) : String :=
  match mag with
  | some m => classify_magnitude m
  | none => "Major"

/-- The mask df[mag] >= 5.5 at transform.py line 101 on one value; a NaN
comparison is False. -/
def sigOf (mag : Option ℚ) : Bool :=
  match mag with
  | some m => decide (q55 ≤ m)
  | none => false

/-- The address sub-dictionary of a Nominatim reverse geocoding response
raw payload: the values found under the city, state and country keys
(none when the key is absent). -/
structure AddressDict where
  city : Option String
  state : Option String
  country : Option String
deriving DecidableEq

/-- A non-None response object returned by the rate limited reverse call:
its raw dictionary either holds an address sub-dictionary under the
address key or does not (raw.get returns None in the latter case). -/
structure GeoResponse where
  address : Option AddressDict
deriving DecidableEq

/-- Outcome of one rate limited reverse lookup, as seen by
get_address_detail.  noResult models every path on which the geopy
RateLimiter call evaluates to None: a network error or timeout repeated
past max_retries (the limiter swallows the final exception and returns
None) and a Nominatim no-match response (reverse returns None).  result
models a non-None response object. -/
inductive GeoOutcome
  | noResult
  | result (resp : GeoResponse)
deriving DecidableEq

/-- The external reverse geocoding world: what the lookup yields at each
coordinate pair (the arguments mirror row latitude and row longitude,
which can be missing in an arbitrary table). -/
abbrev Geocoder := Option ℚ → Option ℚ → GeoOutcome

/-- The lookup world in which every call yields no result (network down,
timeouts exhausting retries, or no match): the limiter returns None. -/
def geocodeNone : Geocoder := fun _ _ => GeoOutcome.noResult

/-- A lookup world whose responses are non-None but carry a raw payload
with no address key. -/
def geocodeNoAddressKey : Geocoder := fun _ _ => GeoOutcome.result { address := none }

/-- The dictionary built and returned by get_address_detail. -/
structure AddressResult where
  city : Option String
  state : Option String
  country : Option String
deriving DecidableEq

/-- transform.get_address_detail at transform.py lines 84 to 97: issues
one reverse lookup through a freshly built Nominatim client and
RateLimiter.  When the call yields None, the conditional expressions put
NaN in all three fields.  When the call yields a response, the code runs
address.raw.get(address).get(city): if the raw payload has no address
key, the inner get is called on None and Python raises AttributeError,
which propagates out of the function. -/
def get_address_detail (g : Geocoder) (latitude longitude : Option ℚ) : Except String AddressResult :=
  match g latitude longitude with
  | GeoOutcome.noResult => Except.ok { city := none, state := none, country := none }
  | GeoOutcome.result resp =>
    match resp.address with
    | none => Except.error "AttributeError: NoneType object has no attribute get"
    | some a => Except.ok { city := a.city, state := a.state, country := a.country }

/-- Display offset of a timezone in milliseconds (WIB is fixed UTC+7). -/
def tzOffsetMs : Tz → Int
  | Tz.UTC => 0
  | Tz.WIB => 25200000

/-- Weekday name for a day index with epoch day zero (1970-01-01) being a
Thursday, matching pandas Series.dt.day_name. -/
def dayNameOfIndex (i : Int) : String :=
  if i = 0 then "Thursday"
  else if i = 1 then "Friday"
  else if i = 2 then "Saturday"
  else if i = 3 then "Sunday"
  else if i = 4 then "Monday"
  else if i = 5 then "Tuesday"
  else "Wednesday"

/-- Models Series.dt.day_name at transform.py line 105 on one value: the
weekday of the timestamp in its display timezone; NaT gives a missing
value. -/
def dayName : TVal → Option String
  | TVal.aware tz ms => some (dayNameOfIndex (Int.emod (Int.ediv (ms + tzOffsetMs tz) 86400000) 7))
  | TVal.naive ms => some (dayNameOfIndex (Int.emod (Int.ediv ms 86400000) 7))
  | _ => none

/-- Models Series.dt.hour at transform.py line 106 on one value: the hour
component (0 to 23) in the display timezone; NaT gives a missing value. -/
def hourOf : TVal → Option Int
  | TVal.aware tz ms => some (Int.emod (Int.ediv (ms + tzOffsetMs tz) 3600000) 24)
  | TVal.naive ms => some (Int.emod (Int.ediv ms 3600000) 24)
  | _ => none

/-- One row of the enriched table returned by enrich_earthquake_data: the
input row (all its columns) plus the derived columns. -/
structure ERow where
  base : Row
  mag_category : String
  is_significant : Bool
  city : Option String
  state : Option String
  country : Option String
  day_of_week : Option String
  hour_of_day : Option Int
deriving DecidableEq

/-- The per-row content of enrich_earthquake_data at transform.py lines
100 to 107: category and significance from mag, the three place fields
from the reverse lookup (whose AttributeError, if raised, propagates),
and the calendar fields from time. -/
def enrichRow (g : Geocoder) (r : Row) : Except String ERow :=
  match get_address_detail g r.latitude r.longitude with
  | Except.error e => Except.error e
  | Except.ok ad =>
    Except.ok
      { base := r
        mag_category := applyClassify r.mag
        is_significant := sigOf r.mag
        city := ad.city
        state := ad.state
        country := ad.country
        day_of_week := dayName r.time
        hour_of_day := hourOf r.time }

/-- transform.enrich_earthquake_data: empty-input no-op; otherwise the
column assignments of lines 100 to 107.  The only fallible step is the
per-row reverse lookup (the row-wise apply at line 103), whose first
raised exception aborts the whole enrichment; the total column maps
commute with it, so the stage is one fallible row map. -/
def enrich_earthquake_data (g : Geocoder) (df : List Row) : Except String (List ERow) :=
  if df.isEmpty then Except.ok []
  else mapME (enrichRow g) df

/-- Modelled from the spec threshold table in section 4.2, with the
explicit inclusive lower and exclusive upper bound of each band, for
comparison against classify_magnitude. -/
def specMagCategory (mag : ℚ) : String :=
  if mag < 2 then "Micro"
  else if 2 ≤ mag ∧ mag < 4 then "Minor"
  else if 4 ≤ mag ∧ mag < q55 then "Light"
  else if q55 ≤ mag ∧ mag < 7 then "Moderate"
  else if 7 ≤ mag ∧ mag < 8 then "Strong"
  else if 8 ≤ mag then "Major"
  else "unreachable"

/-- Timing model of one call through a geopy RateLimiter with
min_delay_seconds = 1: given the recorded time of the previous call
through this limiter instance (none for a fresh instance) and the time
the caller issues the call, returns the time the outbound call starts
and the updated limiter state.  A fresh instance imposes no wait. -/
def rl_call (last : Option Nat) (now : Nat) : Nat × Option Nat :=
  match last with
  | none => (now, some now)
  | some l => (max now (l + 1), some (max now (l + 1)))

/-- Call start time of one get_address_detail invocation issued at time
now: transform.py lines 86 to 89 construct a fresh RateLimiter inside
the function, so the single outbound call goes through a limiter with no
recorded previous call and starts immediately. -/
def get_address_detail_call_start (now : Nat) : Nat := (rl_call none now).1

/-- Outbound call start times of one enrichment pass whose rows issue
their lookups at the given times: one lookup per row (the apply at
transform.py line 103), each through its own freshly constructed
limiter. -/
def enrich_call_starts (issueTimes : List Nat) : List Nat :=
  issueTimes.map get_address_detail_call_start

/-- The caller-visible state of one row of a table object after columns
may have been added to the object in place: the original row plus the
optional added mag_category and is_significant columns (none models the
column being absent from the table object). -/
structure MutRow where
  base : Row
  mag_category : Option String
  is_significant : Option Bool
deriving DecidableEq

/-- A row of a table object to which no columns have been added. -/
def embedNoCols (r : Row) : MutRow := { base := r, mag_category := none, is_significant := none }

/-- Caller-visible state of the argument table object after
clean_earthquake_data returns: every statement in the function either
rebinds the local name df to a new frame returned by drop_duplicates,
dropna, a boolean mask or a column selection, or assigns a column to one
of those new frames, so the object passed by the caller is never
written. -/
def clean_input_after (df : List Row) : List Row := df

/-- Caller-visible state of the argument table object after
enrich_earthquake_data returns: on the empty early return the object is
untouched; otherwise the two column assignments at transform.py lines
100 and 101 execute on the caller object itself (the local name df is
first rebound only at the concat on line 104), so the caller object
gains the mag_category and is_significant columns while the remaining
derived columns land only on the new frames built afterwards. -/
def enrich_input_after (df : List Row) : List MutRow :=
  if df.isEmpty then df.map embedNoCols
  else df.map (fun r => { base := r, mag_category := some (applyClassify r.mag), is_significant := some (sigOf r.mag) })

/-- The properties object of one GeoJSON feature, as read by
extract.parse_geojson through props.get (absent keys give None).  The
time and updated values arrive as epoch milliseconds. -/
structure FeatureProps where
  place : Option String
  mag : Option ℚ
  timeMs : Option Int
  updatedMs : Option Int
  tzP : Option Int
  felt : Option ℚ
  cdi : Option ℚ
  mmi : Option ℚ
  alert : Option String
  status : Option String
  tsunami : Option Int
  sig : Option Int
  net : Option String
  code : Option String
  ids : Option String
  sources : Option String
  types : Option String
deriving DecidableEq

/-- One feature of a well-formed GeoJSON payload: an id, properties and
the geometry coordinates list (expected [lon, lat, depth]). -/
structure Feature where
  fid : Option String
  properties : FeatureProps
  coordinates : List ℚ
deriving DecidableEq

/-- A parsed JSON payload that does have a features array. -/
structure GeoJson where
  features : List Feature
deriving DecidableEq

/-- Models pd.to_datetime(v, unit = ms) on a properties value: None gives
NaT, a millisecond count gives a naive timestamp. -/
def msToTVal : Option Int → TVal
  | none => TVal.null
  | some ms => TVal.naive ms

/-- One record built by the loop body of extract.parse_geojson at
extract.py lines 16 to 45: positional reads of the coordinate triple
raise IndexError when the list is shorter than three, and fetched_at is
the process clock as an aware UTC instant. -/
def featureToRecord (nowMs : Int) (f : Feature) : Except String Row :=
  match f.coordinates with
  | lon :: lat :: dep :: _ =>
    Except.ok
      { id := f.fid
        place := f.properties.place
        mag := f.properties.mag
        time := msToTVal f.properties.timeMs
        updated := msToTVal f.properties.updatedMs
        tz := f.properties.tzP
        felt := f.properties.felt
        cdi := f.properties.cdi
        mmi := f.properties.mmi
        alert := f.properties.alert
        status := f.properties.status
        tsunami := f.properties.tsunami
        sig := f.properties.sig
        net := f.properties.net
        code := f.properties.code
        ids := f.properties.ids
        sources := f.properties.sources
        types := f.properties.types
        longitude := some lon
        latitude := some lat
        depth := some dep
        fetched_at := TVal.aware Tz.UTC nowMs }
  | _ => Except.error "IndexError: coordinate list too short"

/-- extract.parse_geojson: one record per feature, in order; the first
raising feature aborts the parse. -/
def parse_geojson (nowMs : Int) (d : GeoJson) : Except String (List Row) :=
  mapME (featureToRecord nowMs) d.features

/-- Outcome of the HTTP interaction inside
extract.fetch_earthquake_all_day: the GET raises a network error, or
raise_for_status raises on a non-success status, or response.json gives
a payload with no features array (the features subscript raises
KeyError), or a payload with a features array is obtained. -/
inductive FetchOutcome
  | netError
  | httpError (code : Nat)
  | missingFeaturesKey
  | payload (d : GeoJson)
deriving DecidableEq

/-- The body of the try block of extract.fetch_earthquake_all_day at
extract.py lines 59 to 62: any raised exception is modelled as an error
value. -/
def fetch_attempt (nowMs : Int) (fo : FetchOutcome) : Except String (List Row) :=
  match fo with
  | FetchOutcome.netError => Except.error "ConnectionError"
  | FetchOutcome.httpError c => Except.error ("HTTPError status " ++ toString c)
  | FetchOutcome.missingFeaturesKey => Except.error "KeyError: features"
  | FetchOutcome.payload d => parse_geojson nowMs d

/-- extract.fetch_earthquake_all_day at extract.py lines 51 to 66: the
except block catches every exception from the try body, logs it, and
returns an empty frame, so the function itself never raises. -/
def fetch_earthquake_all_day (nowMs : Int) (fo : FetchOutcome) : List Row :=
  match fetch_attempt nowMs fo with
  | Except.ok rows => rows
  | Except.error _ => []

/-- Outcome of the credential load plus to_gbq write inside
load.upload_to_bigquery: the write succeeds, or some step raises (the
message stands for any of the failure modes: credentials, permission,
conflict policy violation with if_exists = fail, schema mismatch). -/
inductive LoadOutcome
  | success
  | failure (msg : String)
deriving DecidableEq

/-- The body of the try block of load.upload_to_bigquery at load.py
lines 47 to 62. -/
def to_gbq_attempt (lo : LoadOutcome) : Except String Unit :=
  match lo with
  | LoadOutcome.success => Except.ok ()
  | LoadOutcome.failure msg => Except.error msg

/-- load.upload_to_bigquery at load.py lines 25 to 64: the except block
catches every exception from the try body and only logs it, so the
function returns normally on every outcome (the df and conflict mode
arguments do not influence control flow in the model; the write outcome
oracle stands for their effect at the destination). -/
def upload_to_bigquery (_df : List ERow) (lo : LoadOutcome) : Except String Unit :=
  match to_gbq_attempt lo with
  | Except.ok u => Except.ok u
  | Except.error _ => Except.ok ()

/-- The stages the orchestrator enters, in order. -/
inductive Stage
  | fetching
  | cleaning
  | enriching
  | loading
deriving DecidableEq

/-- How a run that did not raise ended: the early clean abort on an empty
fetch, or the completion log line at the end of run_pipeline. -/
inductive RunStatus
  | abortedEmpty
  | completed
deriving DecidableEq

/-- What a finished run reports: the stages entered and the final
status. -/
structure RunReport where
  stages : List Stage
  status : RunStatus
deriving DecidableEq

/-- etl_main.run_pipeline at etl_main.py lines 16 to 46: fetch, abort
cleanly when the fetched frame is empty, then clean, enrich and load in
sequence.  The orchestrator catches nothing, so an exception raised by a
stage (an error value here) propagates out of the run. -/
def run_pipeline (nowMs : Int) (fo : FetchOutcome) (g : Geocoder) (lo : LoadOutcome) : Except String RunReport :=
  let raw := fetch_earthquake_all_day nowMs fo
  if raw.isEmpty then Except.ok { stages := [Stage.fetching], status := RunStatus.abortedEmpty }
  else
    match clean_earthquake_data raw with
    | Except.error e => Except.error e
    | Except.ok cleaned =>
      match enrich_earthquake_data g cleaned with
      | Except.error e => Except.error e
      | Except.ok enriched =>
        match upload_to_bigquery enriched lo with
        | Except.error e => Except.error e
        | Except.ok _ =>
          Except.ok
            { stages := [Stage.fetching, Stage.cleaning, Stage.enriching, Stage.loading]
              status := RunStatus.completed }

/-- A raw row template with realistic values in every column, varying the
fields the scenarios exercise. -/
def mkRow (i : Option String) (pl : Option String) (m : Option ℚ) (t : TVal) : Row :=
  { id := i
    place := pl
    mag := m
    time := t
    updated := TVal.naive 1751790000000
    tz := some 0
    felt := none
    cdi := none
    mmi := none
    alert := none
    status := some "reviewed"
    tsunami := some 0
    sig := some 100
    net := some "us"
    code := some "abc7"
    ids := some "us-abc7"
    sources := some "us"
    types := some "origin"
    longitude := some 107
    latitude := some (-6)
    depth := some 10
    fetched_at := TVal.aware Tz.UTC 1751791000000 }

/-- A row whose required fields are all present but whose time value is a
non-null string that fails datetime parsing. -/
def c5row : Row := mkRow (some "c5") (some "West Java") (some 3) (TVal.unparseable "not-a-date")

/-- A single valid raw row, as it comes out of extraction. -/
def c6in : List Row := [mkRow (some "c6") (some "Bali") (some 4) (TVal.naive 1751788800000)]

/-- Normalization applied to its own output: clean once and, when that
does not raise, clean the result again. -/
def clean_twice (df : List Row) : Except String (List Row) :=
  match clean_earthquake_data df with
  | Except.ok out => clean_earthquake_data out
  | Except.error e => Except.error e

/-- A second unparseable-time row (its fetched_at is the usual aware
process timestamp from the template). -/
def c7cxRow : Row := mkRow (some "x1") (some "Sumatra") (some 2) (TVal.unparseable "bad-time")

/-- Family of rows whose required fields are present, whose time and
fetched_at values fail parsing, and whose updated value is a plain naive
timestamp. -/
def c7famRow (idv : String) (m : ℚ) (s sf : String) (ums : Int) : Row :=
  { id := some idv
    place := some "somewhere"
    mag := some m
    time := TVal.unparseable s
    updated := TVal.naive ums
    tz := none
    felt := none
    cdi := none
    mmi := none
    alert := none
    status := none
    tsunami := none
    sig := none
    net := none
    code := none
    ids := none
    sources := none
    types := none
    longitude := some 1
    latitude := some 2
    depth := some 3
    fetched_at := TVal.unparseable sf }

/-- Family of rows whose required fields are present, whose time value
fails parsing, and whose updated and fetched_at values are ordinary (a
naive timestamp and the aware process timestamp respectively). -/
def c7timeBadRow (idv s : String) (ums fms : Int) : Row :=
  { c7famRow idv 2 s "unused" ums with fetched_at := TVal.aware Tz.UTC fms }

/-- Duplicate-id row with a magnitude. -/
def c8rowA : Row := mkRow (some "a") (some "Java") (some 3) (TVal.naive 1751788800000)

/-- Duplicate-id row whose magnitude is missing. -/
def c8rowANull : Row := mkRow (some "a") (some "Java") none (TVal.naive 1751788800000)

/-- The magnitude 9.0 row of the end-to-end scenario (the template
already carries lat -6.2 and lon 106.8). -/
def c8row9 : Row := mkRow (some "q9") (some "Jakarta") (some 9) (TVal.naive 1751788800000)

/-- Scenario input with the non-null-magnitude duplicate first. -/
def c8good : List Row := [c8rowA, c8rowANull, c8row9]

/-- Scenario input with the null-magnitude duplicate first. -/
def c8bad : List Row := [c8rowANull, c8rowA, c8row9]

/-- Clean then enrich the good-order scenario input, in the lookup world
where every reverse lookup yields no result. -/
def c8pipeline : Except String (List ERow) :=
  match clean_earthquake_data c8good with
  | Except.ok out => enrich_earthquake_data geocodeNone out
  | Except.error e => Except.error e

/-- A cleaned-shape row handed to enrichment. -/
def c9row : Row := mkRow (some "c9") (some "Lombok") (some 3) (TVal.aware Tz.WIB 1751788800000)

/-- A well-formed feature of the live feed. -/
def goodFeature : Feature :=
  { fid := some "f1"
    properties :=
      { place := some "Banda Sea"
        mag := some 6
        timeMs := some 1751788800000
        updatedMs := some 1751790000000
        tzP := none
        felt := none
        cdi := none
        mmi := none
        alert := none
        status := some "reviewed"
        tsunami := some 0
        sig := some 554
        net := some "us"
        code := some "x1"
        ids := some "us-x1"
        sources := some "us"
        types := some "origin"
        }
    coordinates := [107, -6, 10] }

/-- A payload with one well-formed feature. -/
def goodGeo : GeoJson := { features := [goodFeature] }

/-- True exactly on non-error results. -/
def exOk : Except String (List Row) → Bool
  | Except.ok _ => true
  | Except.error _ => false

/-- The table obtained by cleaning c6in: timestamps converted to aware
WIB instants and the unselected columns projected away. -/
def c6cleanedRow : Row :=
  { mkRow (some "c6") (some "Bali") (some 4) (TVal.aware Tz.WIB 1751788800000) with
      updated := TVal.aware Tz.WIB 1751790000000
      fetched_at := TVal.aware Tz.WIB 1751791000000
      tz := none, net := none, code := none, ids := none, sources := none }

lemma mapME_cons_error {f : α → Except String β} {a : α} {e : String} (h : f a = Except.error e) (l : List α) :
    mapME f (a :: l) = Except.error e := by
  simp [mapME, h]

lemma mapME_ok_mem {f : α → Except String β} :
    ∀ {l : List α} {out : List β}, mapME f l = Except.ok out →
      ∀ b ∈ out, ∃ a ∈ l, f a = Except.ok b := by
  intro l
  induction l with
  | nil =>
    intro out h b hb
    simp [mapME] at h
    subst h
    simp at hb
  | cons a as ih =>
    intro out h b hb
    simp only [mapME] at h
    cases hfa : f a with
    | error e => rw [hfa] at h; simp at h
    | ok b0 =>
      rw [hfa] at h
      cases hrec : mapME f as with
      | error e => rw [hrec] at h; simp at h
      | ok bs =>
        rw [hrec] at h
        simp only [Except.ok.injEq] at h
        subst h
        rcases List.mem_cons.mp hb with hb0 | hbs
        · exact ⟨a, List.mem_cons_self a as, hb0 ▸ hfa⟩
        · obtain ⟨a1, ha1, hfa1⟩ := ih hrec b hbs
          exact ⟨a1, List.mem_cons_of_mem a ha1, hfa1⟩

lemma mapME_ok_map_eq {f : α → Except String β} (g : α → γ) (g' : β → γ)
    (hpres : ∀ a b, f a = Except.ok b → g' b = g a) :
    ∀ {l : List α} {out : List β}, mapME f l = Except.ok out →
      out.map g' = l.map g := by
  intro l
  induction l with
  | nil =>
    intro out h
    simp [mapME] at h
    subst h
    simp
  | cons a as ih =>
    intro out h
    simp only [mapME] at h
    cases hfa : f a with
    | error e => rw [hfa] at h; simp at h
    | ok b0 =>
      rw [hfa] at h
      cases hrec : mapME f as with
      | error e => rw [hrec] at h; simp at h
      | ok bs =>
        rw [hrec] at h
        simp only [Except.ok.injEq] at h
        subst h
        simp only [List.map_cons]
        rw [hpres a b0 hfa, ih hrec]

lemma mapME_total {f : α → Except String β} (f' : α → β) (h : ∀ a, f a = Except.ok (f' a)) :
    ∀ l : List α, mapME f l = Except.ok (l.map f') := by
  intro l
  induction l with
  | nil => rfl
  | cons a as ih => simp [mapME, h a, ih]

lemma convertRow_ok_fields {r r' : Row} (h : convertRow r = Except.ok r') :
    r'.id = r.id ∧ r'.mag = r.mag ∧ r'.place = r.place ∧
      r'.latitude = r.latitude ∧ r'.longitude = r.longitude := by
  cases h1 : tsPipeline r.time with
  | error e => simp [convertRow, h1] at h
  | ok t =>
    cases h2 : tsPipeline r.updated with
    | error e => simp [convertRow, h1, h2] at h
    | ok u =>
      cases h3 : fetchedPipeline r.fetched_at with
      | error e => simp [convertRow, h1, h2, h3] at h
      | ok f =>
        simp only [convertRow, h1, h2, h3, Except.ok.injEq] at h
        subst h
        exact ⟨rfl, rfl, rfl, rfl, rfl⟩

lemma dedupGo_id_spec :
    ∀ (l : List Row) (seen : List (Option String)),
      ((dedupGo seen l).map Row.id).Nodup ∧
        ∀ x ∈ (dedupGo seen l).map Row.id, x ∉ seen := by
  intro l
  induction l with
  | nil => intro seen; simp [dedupGo]
  | cons r rs ih =>
    intro seen
    by_cases h : r.id ∈ seen
    · rw [show dedupGo seen (r :: rs) = dedupGo seen rs from by simp [dedupGo, h]]
      exact ih seen
    · have hrec := ih (r.id :: seen)
      rw [show dedupGo seen (r :: rs) = r :: dedupGo (r.id :: seen) rs from by simp [dedupGo, h]]
      constructor
      · simp only [List.map_cons, List.nodup_cons]
        exact ⟨fun hmem => (hrec.2 _ hmem) (List.mem_cons_self _ _), hrec.1⟩
      · intro x hx
        simp only [List.map_cons, List.mem_cons] at hx
        rcases hx with he | hm
        · rw [he]; exact h
        · exact fun hs => (hrec.2 x hm) (List.mem_cons_of_mem _ hs)

lemma dedupGo_eq_self :
    ∀ (l : List Row) (seen : List (Option String)),
      (l.map Row.id).Nodup → (∀ r ∈ l, r.id ∉ seen) → dedupGo seen l = l := by
  intro l
  induction l with
  | nil => intro seen _ _; rfl
  | cons r rs ih =>
    intro seen hnd hns
    have h : r.id ∉ seen := hns r (List.mem_cons_self r rs)
    rw [show dedupGo seen (r :: rs) = r :: dedupGo (r.id :: seen) rs from by simp [dedupGo, h]]
    rw [List.map_cons] at hnd
    have hnd' := List.nodup_cons.mp hnd
    congr 1
    apply ih (r.id :: seen) hnd'.2
    intro x hx hmem
    rcases List.mem_cons.mp hmem with he | hs
    · exact hnd'.1 (he ▸ List.mem_map_of_mem Row.id hx)
    · exact hns x (List.mem_cons_of_mem r hx) hs

lemma upload_always_ok : ∀ (df : List ERow) (lo : LoadOutcome), upload_to_bigquery df lo = Except.ok () := by
  intro df lo
  cases lo <;> rfl

/-- C4: the magnitude classification of classify_magnitude agrees with
the spec threshold table everywhere (inclusive lower, exclusive upper
bounds, ordered, non-overlapping), is_significant holds exactly on
magnitudes at least 5.5, and the boundary magnitudes behave as stated:
2.0 gives Minor, 5.5 gives Moderate and is significant, 8.0 gives
Major. -/
theorem magnitude_classification_matches_spec :
    q55 = 11 / 2 ∧
    (∀ m : ℚ, classify_magnitude m = specMagCategory m) ∧
    (∀ m : ℚ, sigOf (some m) = decide (q55 ≤ m)) ∧
    classify_magnitude 2 = "Minor" ∧
    classify_magnitude q55 = "Moderate" ∧ sigOf (some q55) = true ∧
    classify_magnitude 8 = "Major" := by
  have hq : q55 = 11 / 2 := by
    rw [q55, Rat.mk'_eq_divInt, Rat.divInt_eq_div]
    norm_num
  refine ⟨hq, ?_, fun m => rfl, by decide, by decide, by decide, by decide⟩
  intro m
  unfold classify_magnitude specMagCategory
  by_cases h1 : m < 2
  · simp [h1]
  by_cases h2 : m < 4
  · simp [h1, h2, not_lt.mp h1]
  by_cases h3 : m < q55
  · simp [h1, h2, h3, not_lt.mp h2]
  by_cases h4 : m < 7
  · simp [h1, h2, h3, h4, not_lt.mp h3]
  by_cases h5 : m < 8
  · simp [h1, h2, h3, h4, h5, not_lt.mp h4]
  · have h8 : (8 : ℚ) ≤ m := not_lt.mp h5
    simp [h1, h2, h3, h4, h5, h8]

/-- C2 counterexample: two consecutive rows whose lookups are issued at
the same instant start their outbound calls at the same instant, so the
minimum delay of one time unit between consecutive call starts is
violated; the code builds a fresh rate limiter per row instead of
sharing one. -/
theorem rate_limiter_not_shared_gap_violation :
    enrich_call_starts [5, 5] = [5, 5] ∧
    ¬ List.Chain' (fun a b => a + 1 ≤ b) (enrich_call_starts [5, 5]) := by
  refine ⟨rfl, ?_⟩
  intro h
  rw [show enrich_call_starts [5, 5] = [5, 5] from rfl] at h
  have := (List.chain'_cons.mp h).1
  omega

/-- C2 amended: because get_address_detail constructs its RateLimiter
inside the function, every row lookup goes through a fresh limiter with
no recorded previous call, so each outbound call starts exactly when it
is issued and no minimum delay is enforced between the calls of
different rows. -/
theorem per_row_limiter_imposes_no_delay :
    ∀ issueTimes : List Nat, enrich_call_starts issueTimes = issueTimes := by
  intro ts
  show List.map get_address_detail_call_start ts = ts
  exact List.map_id ts

/-- C3 counterexample: when the rate limited reverse call returns a
response object whose raw payload has no address key, the chained get at
transform.py line 94 is called on None and get_address_detail raises an
AttributeError past its boundary; the same exception aborts the whole
enrichment batch. -/
theorem geocoder_raises_on_missing_address :
    get_address_detail geocodeNoAddressKey (some (-6)) (some 107) =
      Except.error "AttributeError: NoneType object has no attribute get" ∧
    enrich_earthquake_data geocodeNoAddressKey [c9row] =
      Except.error "AttributeError: NoneType object has no attribute get" := ⟨rfl, rfl⟩

/-- C3 amended: when a lookup yields no result object (network error,
timeout, retries exhausted, or a Nominatim no-match, all of which make
the rate limited call evaluate to None), get_address_detail returns the
all-null result without raising, and a whole enrichment pass in that
world succeeds: every row keeps all other enrichment fields and gets
null city, state and country.  Only a non-None response whose raw
payload lacks the address key makes the function raise. -/
theorem geocoder_null_on_no_result :
    (∀ (g : Geocoder) (la lo : Option ℚ), g la lo = GeoOutcome.noResult →
      get_address_detail g la lo = Except.ok { city := none, state := none, country := none }) ∧
    (∀ df : List Row, enrich_earthquake_data geocodeNone df =
      Except.ok (df.map (fun r =>
        { base := r
          mag_category := applyClassify r.mag
          is_significant := sigOf r.mag
          city := none, state := none, country := none
          day_of_week := dayName r.time
          hour_of_day := hourOf r.time }))) := by
  constructor
  · intro g la lo h
    simp [get_address_detail, h]
  · intro df
    cases df with
    | nil => rfl
    | cons r rs =>
      rw [show enrich_earthquake_data geocodeNone (r :: rs) = mapME (enrichRow geocodeNone) (r :: rs) from rfl]
      exact mapME_total _ (fun a => rfl) (r :: rs)

/-- C3 amended witness at a concrete lookup. -/
theorem geocoder_null_on_no_result_witness :
    get_address_detail geocodeNone (some (-6)) (some 107) =
      Except.ok { city := none, state := none, country := none } :=
  geocoder_null_on_no_result.1 geocodeNone (some (-6)) (some 107) rfl

/-- C1 counterexample: with a nonempty fetch and a destination write that
raises (here a permission failure), the run still reports completed with
all four stages entered: upload_to_bigquery catches the exception and
only logs it, so nothing propagates to the orchestrator and the run is
not halted with a failure. -/
theorem load_failure_run_reported_completed :
    to_gbq_attempt (LoadOutcome.failure "Forbidden: permission denied on destination table") =
      Except.error "Forbidden: permission denied on destination table" ∧
    run_pipeline 1751791000000 (FetchOutcome.payload goodGeo) geocodeNone
        (LoadOutcome.failure "Forbidden: permission denied on destination table") =
      Except.ok
        { stages := [Stage.fetching, Stage.cleaning, Stage.enriching, Stage.loading]
          status := RunStatus.completed } := ⟨rfl, rfl⟩

/-- C1 amended: every load outcome is absorbed inside
upload_to_bigquery, which always returns normally; consequently the
outcome of the destination write never influences the report of the
run. -/
theorem load_errors_absorbed_in_upload :
    (∀ (df : List ERow) (lo : LoadOutcome), upload_to_bigquery df lo = Except.ok ()) ∧
    (∀ (nowMs : Int) (fo : FetchOutcome) (g : Geocoder) (lo lo' : LoadOutcome),
      run_pipeline nowMs fo g lo = run_pipeline nowMs fo g lo') := by
  refine ⟨upload_always_ok, ?_⟩
  intro nowMs fo g lo lo'
  unfold run_pipeline
  simp only [upload_always_ok]

/-- C10: the body of fetch_earthquake_all_day that can raise is wrapped
in a catch-all, so every failure (network error, non-success status,
malformed payload) yields the empty table; the orchestrator treats an
empty fetch by the single clean abort path, entering no stage beyond
fetching; hence a fetch failure and a genuinely empty feed produce
identical runs. -/
theorem extraction_failures_abort_cleanly :
    (∀ (nowMs : Int) (fo : FetchOutcome), (∃ e, fetch_attempt nowMs fo = Except.error e) →
      fetch_earthquake_all_day nowMs fo = []) ∧
    (∀ (nowMs : Int) (fo : FetchOutcome) (g : Geocoder) (lo : LoadOutcome),
      fetch_earthquake_all_day nowMs fo = [] →
      run_pipeline nowMs fo g lo = Except.ok { stages := [Stage.fetching], status := RunStatus.abortedEmpty }) ∧
    (∀ (nowMs nowMs' : Int) (fo fo' : FetchOutcome) (g g' : Geocoder) (lo lo' : LoadOutcome),
      fetch_earthquake_all_day nowMs fo = [] → fetch_earthquake_all_day nowMs' fo' = [] →
      run_pipeline nowMs fo g lo = run_pipeline nowMs' fo' g' lo') := by
  have habort : ∀ (nowMs : Int) (fo : FetchOutcome) (g : Geocoder) (lo : LoadOutcome),
      fetch_earthquake_all_day nowMs fo = [] →
      run_pipeline nowMs fo g lo = Except.ok { stages := [Stage.fetching], status := RunStatus.abortedEmpty } := by
    intro nowMs fo g lo h
    simp [run_pipeline, h]
  refine ⟨?_, habort, ?_⟩
  · intro nowMs fo ⟨e, he⟩
    unfold fetch_earthquake_all_day
    rw [he]
  · intro nowMs nowMs' fo fo' g g' lo lo' h h'
    rw [habort nowMs fo g lo h, habort nowMs' fo' g' lo' h']

/-- C10 witness: a network error produces the clean abort report. -/
theorem extraction_failures_abort_cleanly_witness :
    run_pipeline 0 FetchOutcome.netError geocodeNone LoadOutcome.success =
      Except.ok { stages := [Stage.fetching], status := RunStatus.abortedEmpty } :=
  extraction_failures_abort_cleanly.2.1 0 FetchOutcome.netError geocodeNone LoadOutcome.success
    (extraction_failures_abort_cleanly.1 0 FetchOutcome.netError ⟨"ConnectionError", rfl⟩)

/-- C5 counterexample: a row whose required fields are all present but
whose time value is an unparseable string survives normalization as the
only output row, and its time is null in the output: the null-drop at
transform.py line 30 runs before the coercing parse at line 33, so the
claimed non-null time invariant fails. -/
theorem unparseable_time_survives_as_null :
    Except.map (fun l => l.map (fun r => (r.id, r.time)))
        (clean_earthquake_data [c5row]) =
      Except.ok [(some "c5", TVal.null)] := rfl

/-- C5 amended: every row surviving normalization has a present
non-negative magnitude, present place, latitude and longitude, and the
output ids are pairwise distinct; the time column alone can be null in
the output, when the source value was non-null but unparseable. -/
theorem normalization_invariants :
    ∀ (df out : List Row), clean_earthquake_data df = Except.ok out →
      (∀ r ∈ out, (∃ m, r.mag = some m ∧ 0 ≤ m) ∧ r.place.isSome = true ∧
        r.latitude.isSome = true ∧ r.longitude.isSome = true) ∧
      (out.map Row.id).Nodup := by
  intro df out h
  unfold clean_earthquake_data at h
  by_cases hemp : df.isEmpty
  · rw [if_pos hemp] at h
    have hdf : df = [] := List.isEmpty_iff.mp hemp
    subst hdf
    cases h
    simp
  · rw [if_neg hemp] at h
    cases hmp : mapME convertRow (List.filter requiredNonNull (dedupById df)) with
    | error e => rw [hmp] at h; cases h
    | ok conv =>
      rw [hmp] at h
      cases h
      constructor
      · intro r hr
        obtain ⟨c, hc, hrc⟩ := List.mem_map.mp hr
        obtain ⟨hcconv, hmag⟩ := List.mem_filter.mp hc
        obtain ⟨a, ha, hconv⟩ := mapME_ok_mem hmp c hcconv
        obtain ⟨hid, hmg, hpl, hlat, hlon⟩ := convertRow_ok_fields hconv
        have hreq := (List.mem_filter.mp ha).2
        simp only [requiredNonNull, Bool.and_eq_true] at hreq
        obtain ⟨⟨⟨⟨hqm, hqp⟩, hqla⟩, hqlo⟩, _⟩ := hreq
        subst hrc
        refine ⟨?_, ?_, ?_, ?_⟩
        · unfold magNonNeg at hmag
          cases hcm : c.mag with
          | none => rw [hcm] at hmag; cases hmag
          | some m =>
            rw [hcm] at hmag
            simp only [decide_eq_true_eq] at hmag
            exact ⟨m, by rw [show (dropUnselected c).mag = c.mag from rfl, hcm], hmag⟩
        · rw [show (dropUnselected c).place = c.place from rfl, hpl]; exact hqp
        · rw [show (dropUnselected c).latitude = c.latitude from rfl, hlat]; exact hqla
        · rw [show (dropUnselected c).longitude = c.longitude from rfl, hlon]; exact hqlo
      · have h0 : ((dedupById df).map Row.id).Nodup := (dedupGo_id_spec df []).1
        have h1 : ((List.filter requiredNonNull (dedupById df)).map Row.id).Nodup :=
          List.Nodup.sublist ((List.filter_sublist _).map Row.id) h0
        have h2 : conv.map Row.id = (List.filter requiredNonNull (dedupById df)).map Row.id :=
          mapME_ok_map_eq Row.id Row.id (fun a b hb => (convertRow_ok_fields hb).1) hmp
        have h3 : ((List.filter magNonNeg conv).map Row.id).Nodup :=
          List.Nodup.sublist ((List.filter_sublist _).map Row.id) (h2 ▸ h1)
        rw [List.map_map, show Row.id ∘ dropUnselected = Row.id from funext fun r => rfl]
        exact h3

/-- C5 amended witness: the invariants hold on the concrete output of
cleaning c6in. -/
theorem normalization_invariants_witness :
    (∀ r ∈ [c6cleanedRow], (∃ m, r.mag = some m ∧ 0 ≤ m) ∧ r.place.isSome = true ∧
      r.latitude.isSome = true ∧ r.longitude.isSome = true) ∧
    (([c6cleanedRow] : List Row).map Row.id).Nodup :=
  normalization_invariants c6in [c6cleanedRow] rfl

/-- C6 counterexample: cleaning c6in once succeeds, but cleaning the
cleaned table raises the pandas already-tz-aware error, because the
tz_localize at transform.py line 33 is reapplied to the now aware time
column; normalize composed with itself therefore differs from a single
normalize at this input. -/
theorem renormalization_raises_on_cleaned_table :
    clean_twice c6in = Except.error errAlreadyAware ∧
    exOk (clean_earthquake_data c6in) = true ∧
    clean_twice c6in ≠ clean_earthquake_data c6in := by
  refine ⟨rfl, rfl, ?_⟩
  intro h
  have h1 : exOk (clean_earthquake_data c6in) = true := rfl
  rw [← h, show clean_twice c6in = Except.error errAlreadyAware from rfl] at h1
  exact Bool.noConfusion h1

/-- C6 amended: normalization is idempotent only on the empty table; on
any nonempty table in normalized shape (tz-aware WIB times, required
fields present, distinct ids), a second normalization raises the
already-tz-aware error instead of returning the table unchanged. -/
theorem normalization_idempotent_only_on_empty :
    clean_earthquake_data ([] : List Row) = Except.ok [] ∧
    (∀ u : List Row, u ≠ [] →
      (∀ r ∈ u, ∃ ms, r.time = TVal.aware Tz.WIB ms) →
      (∀ r ∈ u, requiredNonNull r = true) →
      (u.map Row.id).Nodup →
      clean_earthquake_data u = Except.error errAlreadyAware) := by
  refine ⟨rfl, ?_⟩
  intro u hne haware hreq hnd
  cases u with
  | nil => exact absurd rfl hne
  | cons r rs =>
    have hded : dedupById (r :: rs) = r :: rs :=
      dedupGo_eq_self (r :: rs) [] hnd (fun x _ => List.not_mem_nil x.id)
    have hfil : List.filter requiredNonNull (r :: rs) = r :: rs :=
      List.filter_eq_self.mpr hreq
    obtain ⟨ms, hms⟩ := haware r (List.mem_cons_self r rs)
    have ht : tsPipeline r.time = Except.error errAlreadyAware := by rw [hms]; rfl
    have hcv : convertRow r = Except.error errAlreadyAware := by
      simp [convertRow, ht]
    rw [show clean_earthquake_data (r :: rs) =
        (match mapME convertRow (List.filter requiredNonNull (dedupById (r :: rs))) with
          | Except.error e => Except.error e
          | Except.ok converted =>
            Except.ok (List.map dropUnselected (List.filter magNonNeg converted))) from rfl]
    rw [hded, hfil, mapME_cons_error hcv]

/-- C6 amended witness: re-cleaning the concrete cleaned table raises. -/
theorem normalization_idempotent_only_on_empty_witness :
    clean_earthquake_data [c6cleanedRow] = Except.error errAlreadyAware :=
  normalization_idempotent_only_on_empty.2 [c6cleanedRow]
    (by simp)
    (fun r hr => ⟨1751788800000, by rw [List.mem_singleton.mp hr]; rfl⟩)
    (fun r hr => by rw [List.mem_singleton.mp hr]; rfl)
    (by simp)

/-- C7 counterexample: a row whose time value is non-null but fails
parsing is not dropped by normalization; it survives as the sole output
row with a null time, because the dropna at transform.py line 30 runs
before the coercing parse at line 33 and nothing re-checks afterwards. -/
theorem parse_failure_row_not_dropped :
    Except.map (fun l => l.map (fun r => (r.id, r.time)))
        (clean_earthquake_data [c7cxRow]) =
      Except.ok [(some "x1", TVal.null)] := rfl

/-- C7 amended: a time value that fails parsing becomes null but the row
is not dropped, because the null-drop precedes the coercing parse: the
row survives with a null time.  A fetched_at parse failure is not
tolerated either: the coerced fetched_at column is all-NaT and tz-naive,
so the tz_convert at transform.py line 36 raises a TypeError that aborts
the whole normalization instead of dropping the row or nulling the
field. -/
theorem parse_failure_yields_null_not_drop (idv s sf : String) (ums fms : Int) :
    Except.map (fun l => l.map (fun r => (r.id, r.time)))
        (clean_earthquake_data [c7timeBadRow idv s ums fms]) =
      Except.ok [(some idv, TVal.null)] ∧
    clean_earthquake_data [c7famRow idv 2 s sf ums] =
      Except.error errNaiveConvert := ⟨rfl, rfl⟩

/-- C8 counterexample: on an input holding two rows with the same id of
which exactly one has a null magnitude (the null one first) plus a
distinct magnitude 9 row, the normalized table holds no row at all for
the duplicated id: dedup keeps the first occurrence, which the null-drop
then removes. -/
theorem dedup_keeps_first_null_mag_order :
    Except.map (fun l => l.map Row.id) (clean_earthquake_data c8bad) =
      Except.ok [some "q9"] := rfl

/-- C8 amended: when the non-null-magnitude duplicate occurs first, the
normalized table holds exactly that row for the duplicated id plus the
magnitude 9 row, and enrichment (here in the lookup-failure world)
classifies the magnitude 9 row as Major with is_significant true. -/
theorem end_to_end_scenario_nonnull_first :
    Except.map (fun l => l.map Row.id) (clean_earthquake_data c8good) =
      Except.ok [some "a", some "q9"] ∧
    Except.map (fun l => l.map (fun e : ERow => e.base.id)) c8pipeline =
      Except.ok [some "a", some "q9"] ∧
    Except.map (fun l => l.map ERow.mag_category) c8pipeline =
      Except.ok ["Minor", "Major"] ∧
    Except.map (fun l => l.map ERow.is_significant) c8pipeline =
      Except.ok [false, true] := ⟨rfl, rfl, rfl, rfl⟩

/-- C9 counterexample: after enrichment runs on a one-row table, the
caller-visible argument object is no longer the unmodified input: it has
gained the mag_category and is_significant columns assigned in place at
transform.py lines 100 and 101. -/
theorem enrich_mutates_input_columns :
    enrich_input_after [c9row] =
      [{ base := c9row, mag_category := some "Minor", is_significant := some false }] ∧
    enrich_input_after [c9row] ≠ List.map embedNoCols [c9row] := by
  refine ⟨rfl, ?_⟩
  decide

/-- C9 amended: clean_earthquake_data leaves its argument object
untouched; enrich_earthquake_data preserves the rows and original
columns of its argument but, on nonempty input, adds the computed
mag_category and is_significant columns to the argument object in
place. -/
theorem stage_input_preservation :
    (∀ df : List Row, clean_input_after df = df) ∧
    (∀ df : List Row, List.map MutRow.base (enrich_input_after df) = df) ∧
    (∀ (df : List Row) (r : Row), r ∈ df → df.isEmpty = false →
      ({ base := r, mag_category := some (applyClassify r.mag),
         is_significant := some (sigOf r.mag) } : MutRow) ∈ enrich_input_after df) := by
  refine ⟨fun df => rfl, ?_, ?_⟩
  · intro df
    unfold enrich_input_after
    by_cases h : df.isEmpty
    · rw [if_pos h, List.map_map, show MutRow.base ∘ embedNoCols = id from funext fun r => rfl,
        List.map_id]
    · rw [if_neg h, List.map_map]
      exact List.map_id df
  · intro df r hr hne
    unfold enrich_input_after
    rw [hne]
    exact List.mem_map_of_mem _ hr

/-- C9 amended witness: the concrete one-row table gains the two columns
in place. -/
theorem stage_input_preservation_witness :
    ({ base := c9row, mag_category := some (applyClassify c9row.mag),
       is_significant := some (sigOf c9row.mag) } : MutRow) ∈ enrich_input_after [c9row] :=
  stage_input_preservation.2.2 [c9row] c9row (List.mem_singleton.mpr rfl) rfl
